import Mathlib

/-!
Verification development for `src/recorder.js` (browser voice-message widget).

The module keeps a handful of mutable globals (`recordRTC`, `stream`,
`audioCtx`, `analyser`, `animFrame`, `blob`, `state`, `audioEl`) and exposes
`Recorder.toggle()`, `Recorder.play()`, `Recorder.getBlob()` plus an
`onStateChange` hook.  We embed that module state as the structure `St`
below and each code path as a pure function `St → St × List Event`, where
`Event` records every externally observable side effect (platform calls,
alerts, UI updates, state-change notifications).

Asynchrony is embedded by splitting `toggle()` at its two suspension
points, exactly as the JavaScript control flow does:
* `toggleSync` is the code that runs synchronously inside a `toggle()`
  call: the `state === 'recording'` test, and then either the call to
  `recordRTC.stopRecording(cb)` (stop branch, which returns at line 114)
  or the initiation of `await navigator.mediaDevices.getUserMedia` (start
  branch, which suspends at line 119).
* `stopCallback` is the body of the callback passed to
  `recordRTC.stopRecording` (lines 101-113), run later with the blob the
  encoder produced.
* `mediaOk` / `mediaFail` are the two continuations of the `await` at
  line 119: the code from line 127 on, or the `catch` block (lines
  120-124).
Neither continuation re-checks `state`, and the module has no busy flag;
the embedding reproduces that faithfully.
-/

namespace Recorder

/-- The session state tag of recorder.js: `idle | recording | done`
(line 24). -/
inductive RecState
  | idle
  | recording
  | done
deriving DecidableEq, Repr

/-- A microphone `MediaStream`: an identifier plus the identifiers of its
tracks (`stream.getTracks()`). -/
structure Stream where
  id : Nat
  tracks : List Nat
deriving DecidableEq, Repr

/-- A recorded `Blob`: its `size` in bytes plus an abstract content tag
standing for the bytes. -/
structure Blob where
  size : Nat
  tag : Nat
deriving DecidableEq, Repr

/-- The `<audio>` element used for playback (`audioEl`, line 25): its
`paused` flag, its `currentTime`, and the object URL it was created
from. -/
structure AudioEl where
  paused : Bool
  currentTime : ℚ
  url : Nat
deriving DecidableEq, Repr

/-- The module-level mutable state of recorder.js (lines 17-25), plus a
flag recording whether the caller has set `window.Recorder.onStateChange`
and two counters supplying fresh object-URL and animation-frame
identifiers. -/
structure St where
  recordRTC : Bool
  stream : Option Stream
  audioCtx : Bool
  animFrame : Option Nat
  blob : Option Blob
  state : RecState
  audioEl : Option AudioEl
  bars : List ℚ
  hasCallback : Bool
  nextUrl : Nat
  nextAnim : Nat
deriving DecidableEq, Repr

/-- Every externally observable side effect the module can perform. -/
inductive Event
  | getUserMediaCall
  | alertMicDenied
  | alertNoRecording
  | encoderStart (streamId : Nat)
  | encoderStopRequest
  | attachVisualiser (streamId : Nat)
  | cancelAnim (id : Nat)
  | audioCtxClosed
  | trackStop (id : Nat)
  | notify (s : RecState)
  | setUI (s : RecState)
  | createURL (url : Nat)
  | playStarted (url : Nat)
  | playCalled (url : Nat)
  | pauseCalled
  | revokeURL (url : Nat)
  | setPlayBtnPlay
  | setPlayBtnPause
deriving DecidableEq, Repr

/-- Single bar mapping of the draw loop (lines 51-53): bar `i` of `count`
reads bin `floor(i * binCount / count)`. -/
def barBin (i binCount count : Nat) : Nat :=
  i * binCount / count

/-- Single bar mapping of the draw loop (line 53): raw magnitude
`m ∈ [0,255]` becomes the display height `4 + (m / 255) * 48` pixels. -/
def barHeight (m : Nat) : ℚ :=
  4 + ((m : ℚ) / 255) * 48

/-- One pass of `draw()` (lines 48-54): the heights written to the
`count` bars from the frequency snapshot `data`. -/
def drawHeights (data : List Nat) (count : Nat) : List ℚ :=
  (List.range count).map fun i => barHeight (data.getD (barBin i data.length count) 0)

/-- `startVisualiser` (lines 38-58): creates the `AudioContext`, connects
the stream to a fresh analyser, and schedules the draw loop via
`requestAnimationFrame`. -/
def startVisualiser (s : St) (streamId : Nat) : St × List Event :=
  ({ s with audioCtx := true, animFrame := some s.nextAnim, nextAnim := s.nextAnim + 1 },
    [Event.attachVisualiser streamId])

/-- `stopVisualiser` (lines 60-68): cancels the scheduled animation frame
and closes the `AudioContext` when present, clears both references, and
resets every bar to the 4px minimum. -/
def stopVisualiser (s : St) : St × List Event :=
  ({ s with animFrame := none, audioCtx := false,
            bars := s.bars.map fun _ => (4 : ℚ) },
    (match s.animFrame with
      | some a => [Event.cancelAnim a]
      | none => []) ++
    (if s.audioCtx then [Event.audioCtxClosed] else []))

/-- The stream clean-up inside the stop callback (lines 106-107):
`if (stream) stream.getTracks().forEach(t => t.stop()); stream = null;`. -/
def closeStream (s : St) : St × List Event :=
  match s.stream with
  | some st => ({ s with stream := none }, st.tracks.map Event.trackStop)
  | none => ({ s with stream := none }, [])

/-- The callback passed to `recordRTC.stopRecording` (lines 101-113), run
when the encoder finishes with blob `b`: stores the blob, releases the
stream, stops the visualiser, moves to `done`, updates the UI and fires
`onStateChange('done')` when the hook is set. -/
def stopCallback (s : St) (b : Blob) : St × List Event :=
  let r1 := closeStream { s with blob := some b }
  let r2 := stopVisualiser r1.1
  ({ r2.1 with state := RecState.done },
    r1.2 ++ r2.2 ++ [Event.setUI RecState.done] ++
      (if s.hasCallback then [Event.notify RecState.done] else []))

/-- The synchronous part of `Recorder.toggle()` (lines 96-119): when the
state is `recording` it calls `recordRTC.stopRecording(cb)` and returns
(the callback runs later, see `stopCallback`); otherwise it initiates
`await navigator.mediaDevices.getUserMedia({audio: true})` and suspends
(the continuation is `mediaOk` or `mediaFail`). -/
def toggleSync (s : St) : St × List Event :=
  if s.state = RecState.recording then
    (s, [Event.encoderStopRequest])
  else
    (s, [Event.getUserMediaCall])

/-- The continuation of `toggle()` after `getUserMedia` resolves with a
stream (lines 127-136): store the stream, create and start a `RecordRTC`
on it, start the visualiser on the same stream, move to `recording`,
update the UI and fire `onStateChange('recording')` when the hook is
set.  The JavaScript continuation does not re-check `state`. -/
def mediaOk (s : St) (st : Stream) : St × List Event :=
  let r := startVisualiser { s with stream := some st, recordRTC := true } st.id
  ({ r.1 with state := RecState.recording },
    [Event.encoderStart st.id] ++ r.2 ++ [Event.setUI RecState.recording] ++
      (if s.hasCallback then [Event.notify RecState.recording] else []))

/-- The `catch` continuation of `toggle()` when `getUserMedia` rejects
(lines 120-124): log, alert the user, and return with no other effect. -/
def mediaFail (s : St) : St × List Event :=
  (s, [Event.alertMicDenied])

/-- The fresh-play tail of `Recorder.play()` (lines 160-169): create an
object URL for the blob, build a new `Audio` element on it, install the
`onended` handler, start playback and set the pause glyph. -/
def freshPlay (s : St) : St × List Event :=
  ({ s with audioEl := some { paused := false, currentTime := 0, url := s.nextUrl },
            nextUrl := s.nextUrl + 1 },
    [Event.createURL s.nextUrl, Event.playStarted s.nextUrl, Event.setPlayBtnPause])

/-- `Recorder.play()` (lines 140-170): rejects a missing or empty blob
with an alert; pauses a playing element; resumes a paused element whose
position is strictly positive; otherwise starts a fresh playback. -/
def play (s : St) : St × List Event :=
  match s.blob with
  | none => (s, [Event.alertNoRecording])
  | some b =>
    if b.size = 0 then
      (s, [Event.alertNoRecording])
    else
      match s.audioEl with
      | some el =>
        if el.paused = false then
          ({ s with audioEl := some { el with paused := true } },
            [Event.pauseCalled, Event.setPlayBtnPlay])
        else if 0 < el.currentTime then
          ({ s with audioEl := some { el with paused := false } },
            [Event.playCalled el.url, Event.setPlayBtnPause])
        else
          freshPlay s
      | none => freshPlay s

/-- The `onended` handler installed by the fresh-play branch (lines
163-167): on natural end of the clip, reset the play glyph, revoke the
object URL of the element, and drop the element reference. -/
def onendedHandler (s : St) : St × List Event :=
  match s.audioEl with
  | some el => ({ s with audioEl := none },
      [Event.setPlayBtnPlay, Event.revokeURL el.url])
  | none => (s, [])

/-- `Recorder.getBlob()` (lines 172-175). -/
def getBlob (s : St) : Option Blob :=
  s.blob

/-- Environment step, not module code: media time advances by `t` while
an element exists and is not paused. -/
def advance (s : St) (t : ℚ) : St :=
  match s.audioEl with
  | some el =>
    if el.paused then s
    else { s with audioEl := some { el with currentTime := el.currentTime + t } }
  | none => s

/-- Environment step driving the scheduled draw loop: while an animation
frame is scheduled, one `draw()` pass runs on the snapshot `data` and
re-schedules itself (lines 48-57). -/
def drawFrame (s : St) (data : List Nat) : St :=
  match s.animFrame with
  | some _ => { s with bars := drawHeights data s.bars.length,
                       animFrame := some s.nextAnim, nextAnim := s.nextAnim + 1 }
  | none => s

/-- The atomic steps of an execution of the module: the synchronous part
of a `toggle()` call, the resumption of its two asynchronous
continuations, the encoder completion callback, a `play()` call, the
`onended` firing, and the two environment steps. -/
inductive Op
  | toggleSync
  | mediaOk (st : Stream)
  | mediaFail
  | encoderDone (b : Blob)
  | playToggle
  | playEnded
  | advance (t : ℚ)
  | drawFrame (data : List Nat)

/-- Apply one step to the module state, returning the new state and the
events the step emitted. -/
def applyOp (s : St) : Op → St × List Event
  | Op.toggleSync => toggleSync s
  | Op.mediaOk st => mediaOk s st
  | Op.mediaFail => mediaFail s
  | Op.encoderDone b => stopCallback s b
  | Op.playToggle => play s
  | Op.playEnded => onendedHandler s
  | Op.advance t => (advance s t, [])
  | Op.drawFrame data => (drawFrame s data, [])

/-- Run a list of steps, collecting all emitted events in order. -/
def runTrace (s : St) : List Op → St × List Event
  | [] => (s, [])
  | op :: ops =>
    let r := applyOp s op
    let rest := runTrace r.1 ops
    (rest.1, r.2 ++ rest.2)

/-- The state of the module right after load (lines 12-25): no stream, no
blob, state `idle`, no playback element; `bars0` are the DOM bars found
by `init`, `hasCb` says whether the caller set `onStateChange`. -/
def initState (bars0 : List ℚ) (hasCb : Bool) : St :=
  { recordRTC := false, stream := none, audioCtx := false, animFrame := none,
    blob := none, state := RecState.idle, audioEl := none, bars := bars0,
    hasCallback := hasCb, nextUrl := 0, nextAnim := 0 }

/-- The blob `b` of the last `Op.encoderDone b` in the step list, if
any: the artifact of the most recently completed recording. -/
def lastArtifact (ops : List Op) : Option Blob :=
  ops.foldl (fun acc op =>
    match op with
    | Op.encoderDone b => some b
    | _ => acc) none

/-! Theorems. -/

/-- C9: the stream-release operation of the stop callback (lines 106-107)
is idempotent: running it a second time on a state whose stream has
already been released changes nothing and emits no event (and, being a
total function, it raises no error). -/
theorem c9_close_stream_idempotent (s : St) :
    closeStream (closeStream s).1 = ((closeStream s).1, []) := by
  cases h : s.stream <;> simp [closeStream, h]

/-- C7: calling `Recorder.play()` with no blob, or with a blob of size 0,
alerts the user (`NoRecording`), returns normally, and leaves the whole
module state unchanged: no playback element is created and any existing
playback state is untouched. -/
theorem c7_play_without_recording (s : St)
    (h : s.blob = none ∨ ∃ b, s.blob = some b ∧ b.size = 0) :
    (play s).1 = s ∧ (play s).2 = [Event.alertNoRecording] := by
  rcases h with h | ⟨b, hb, hsz⟩
  · simp [play, h]
  · simp [play, hb, hsz]

/-- C7 witness: a concrete state with no blob. -/
theorem c7_play_without_recording_witness :
    (play (initState [4, 4] true)).1 = initState [4, 4] true ∧
      (play (initState [4, 4] true)).2 = [Event.alertNoRecording] :=
  c7_play_without_recording (initState [4, 4] true) (Or.inl rfl)

/-- C10: when a playback element exists, is paused, and its position is
exactly 0, `play()` does not resume it: it takes the fresh-play branch,
creating a new element on a fresh object URL for the current blob and
starting from position 0.  (The resume branch requires a strictly
positive position.) -/
theorem c10_paused_at_zero_takes_fresh_play (s : St) (b : Blob) (el : AudioEl)
    (hb : s.blob = some b) (hsz : b.size ≠ 0)
    (hel : s.audioEl = some el) (hp : el.paused = true) (hz : el.currentTime = 0) :
    play s = freshPlay s ∧
    (play s).1.audioEl = some { paused := false, currentTime := 0, url := s.nextUrl } ∧
    Event.createURL s.nextUrl ∈ (play s).2 := by
  have hfresh : play s = freshPlay s := by
    simp [play, hb, hsz, hel, hp, hz]
  refine ⟨hfresh, ?_, ?_⟩ <;> simp [hfresh, freshPlay]

/-- C10 witness: a concrete paused-at-zero state. -/
theorem c10_paused_at_zero_takes_fresh_play_witness :
    play { initState [4] true with
            blob := some { size := 5, tag := 0 },
            audioEl := some { paused := true, currentTime := 0, url := 9 } } =
      freshPlay { initState [4] true with
                   blob := some { size := 5, tag := 0 },
                   audioEl := some { paused := true, currentTime := 0, url := 9 } } :=
  (c10_paused_at_zero_takes_fresh_play _ { size := 5, tag := 0 }
    { paused := true, currentTime := 0, url := 9 }
    rfl (by decide) rfl rfl rfl).1

theorem barHeight_lower (m : Nat) : 4 ≤ barHeight m := by
  have h0 : (0 : ℚ) ≤ ((m : ℚ) / 255) * 48 := by positivity
  unfold barHeight
  linarith

theorem barHeight_upper (m : Nat) (h : m ≤ 255) : barHeight m ≤ 52 := by
  have hm : (m : ℚ) ≤ 255 := by exact_mod_cast h
  have h1 : ((m : ℚ) / 255) * 48 ≤ 48 := by
    rw [div_mul_eq_mul_div, div_le_iff₀ (by norm_num : (0 : ℚ) < 255)]
    nlinarith
  unfold barHeight
  linarith

theorem barHeight_mono (m m2 : Nat) (h : m ≤ m2) : barHeight m ≤ barHeight m2 := by
  have hm : (m : ℚ) ≤ m2 := by exact_mod_cast h
  unfold barHeight
  have h1 : (m : ℚ) / 255 ≤ (m2 : ℚ) / 255 :=
    div_le_div_of_nonneg_right hm (by norm_num)
  nlinarith

/-- C4: for a bar count between 1 and the number of frequency bins, each
pass of `draw()` gives bar `i` the height `4 + (m/255) * 48` of the
magnitude `m` of bin `floor(i * binCount / count)`; that bin index is in
range, every produced height lies in `[4, 52]`, and the height is a
non-decreasing function of the magnitude. -/
theorem c4_visualiser_bars (data : List Nat) (count i : Nat)
    (hN : 1 ≤ count) (hL : count ≤ data.length)
    (hdata : ∀ m ∈ data, m ≤ 255) (hi : i < count) :
    barBin i data.length count < data.length ∧
    (drawHeights data count).getD i 0 =
      barHeight (data.getD (barBin i data.length count) 0) ∧
    4 ≤ (drawHeights data count).getD i 0 ∧
    (drawHeights data count).getD i 0 ≤ 52 ∧
    (∀ m m2 : Nat, m ≤ m2 → barHeight m ≤ barHeight m2) := by
  have hcount : 0 < count := hN
  have hLpos : 0 < data.length := lt_of_lt_of_le hcount hL
  have hbin : barBin i data.length count < data.length := by
    unfold barBin
    rw [Nat.div_lt_iff_lt_mul hcount]
    calc i * data.length < count * data.length :=
          Nat.mul_lt_mul_of_lt_of_le hi le_rfl hLpos
      _ = data.length * count := Nat.mul_comm count data.length
  have hget : (drawHeights data count).getD i 0 =
      barHeight (data.getD (barBin i data.length count) 0) := by
    simp [drawHeights, List.getD, hi]
  have hmem : data.getD (barBin i data.length count) 0 ∈ data := by
    rw [List.getD_eq_getElem data 0 hbin]
    exact List.getElem_mem hbin
  have hle : data.getD (barBin i data.length count) 0 ≤ 255 := hdata _ hmem
  refine ⟨hbin, hget, ?_, ?_, fun m m2 h => barHeight_mono m m2 h⟩
  · rw [hget]; exact barHeight_lower _
  · rw [hget]; exact barHeight_upper _ hle

/-- C4 witness: a concrete snapshot with 3 bins and 2 bars. -/
theorem c4_visualiser_bars_witness :
    barBin 1 3 2 < 3 ∧
    (drawHeights [0, 128, 255] 2).getD 1 0 =
      barHeight ((List.getD [0, 128, 255] (barBin 1 3 2)) 0) ∧
    4 ≤ (drawHeights [0, 128, 255] 2).getD 1 0 ∧
    (drawHeights [0, 128, 255] 2).getD 1 0 ≤ 52 := by
  have h := c4_visualiser_bars [0, 128, 255] 2 1 (by decide) (by decide)
    (by decide) (by decide)
  exact ⟨h.1, h.2.1, h.2.2.1, h.2.2.2.1⟩

/-- C1: a `toggle()` call in state `recording` (the synchronous stop
request followed by the encoder completion callback) releases the active
stream (a `trackStop` for every track, stream reference cleared), detaches
the visualiser (the scheduled animation frame is cancelled, every bar is
reset to the 4px minimum), sets the state to `done`, and across the whole
operation fires `onStateChange` exactly once, with `done`. -/
theorem c1_stop_teardown (s : St) (st : Stream) (af : Nat) (b : Blob)
    (hrec : s.state = RecState.recording)
    (hstream : s.stream = some st)
    (hanim : s.animFrame = some af)
    (hcb : s.hasCallback = true) :
    (stopCallback (toggleSync s).1 b).1.stream = none ∧
    (∀ t ∈ st.tracks, Event.trackStop t ∈ (stopCallback (toggleSync s).1 b).2) ∧
    (stopCallback (toggleSync s).1 b).1.animFrame = none ∧
    Event.cancelAnim af ∈ (stopCallback (toggleSync s).1 b).2 ∧
    (stopCallback (toggleSync s).1 b).1.bars = s.bars.map (fun _ => (4 : ℚ)) ∧
    (stopCallback (toggleSync s).1 b).1.state = RecState.done ∧
    ((toggleSync s).2 ++ (stopCallback (toggleSync s).1 b).2).count
        (Event.notify RecState.done) = 1 := by
  have ht : toggleSync s = (s, [Event.encoderStopRequest]) := by
    simp [toggleSync, hrec]
  rw [ht]
  have htracks : ∀ t ∈ st.tracks, Event.trackStop t ∈ (stopCallback s b).2 := by
    intro t htm
    have hmem : Event.trackStop t ∈ st.tracks.map Event.trackStop :=
      List.mem_map_of_mem _ htm
    simp only [stopCallback, closeStream, stopVisualiser, hstream]
    simp [List.mem_append, hmem]
  have hcount : (stopCallback s b).2.count (Event.notify RecState.done) = 1 := by
    have hmap : (st.tracks.map Event.trackStop).count (Event.notify RecState.done) = 0 := by
      rw [List.count_eq_zero]
      intro hmem
      rcases List.mem_map.mp hmem with ⟨t, _, habs⟩
      exact Event.noConfusion habs
    cases haud : s.audioCtx <;>
      simp [stopCallback, closeStream, stopVisualiser, hstream, hanim, hcb, haud,
        List.count_append, List.count_cons, hmap]
  refine ⟨?_, htracks, ?_, ?_, ?_, ?_, ?_⟩
  · simp [stopCallback, closeStream, stopVisualiser, hstream]
  · simp [stopCallback, closeStream, stopVisualiser, hstream]
  · simp [stopCallback, closeStream, stopVisualiser, hstream, hanim, hcb]
  · simp [stopCallback, closeStream, stopVisualiser, hstream]
  · simp [stopCallback, closeStream, stopVisualiser, hstream]
  · simpa [List.count_append, List.count_cons] using hcount

/-- C1 witness: a concrete recording state with one stream of two tracks
and a scheduled frame. -/
theorem c1_stop_teardown_witness :
    (stopCallback (toggleSync
        { initState [10, 20] true with
            state := RecState.recording,
            stream := some { id := 1, tracks := [5, 6] },
            audioCtx := true,
            animFrame := some 3,
            recordRTC := true }).1 { size := 7, tag := 1 }).1.state =
      RecState.done :=
  (c1_stop_teardown _ { id := 1, tracks := [5, 6] } 3 { size := 7, tag := 1 }
    rfl rfl rfl rfl).2.2.2.2.2.1

/-- C2: a `toggle()` call in a non-recording state whose microphone
acquisition succeeds (the synchronous part followed by the `mediaOk`
continuation) moves the state to `recording`, starts the encoder and
attaches the visualiser on the same acquired stream, and across the whole
operation fires `onStateChange` exactly once, with `recording`. -/
theorem c2_start_success (s : St) (st : Stream)
    (hnr : s.state ≠ RecState.recording)
    (hcb : s.hasCallback = true) :
    (mediaOk (toggleSync s).1 st).1.state = RecState.recording ∧
    Event.encoderStart st.id ∈ (mediaOk (toggleSync s).1 st).2 ∧
    Event.attachVisualiser st.id ∈ (mediaOk (toggleSync s).1 st).2 ∧
    (mediaOk (toggleSync s).1 st).1.stream = some st ∧
    ((toggleSync s).2 ++ (mediaOk (toggleSync s).1 st).2).count
        (Event.notify RecState.recording) = 1 := by
  have ht : toggleSync s = (s, [Event.getUserMediaCall]) := by
    simp [toggleSync, hnr]
  rw [ht]
  refine ⟨?_, ?_, ?_, ?_, ?_⟩ <;>
    simp [mediaOk, startVisualiser, hcb, List.count_append, List.count_cons]

/-- C2 witness: a concrete idle state and a concrete stream. -/
theorem c2_start_success_witness :
    (mediaOk (toggleSync (initState [4, 4] true)).1 { id := 2, tracks := [8] }).1.state =
      RecState.recording :=
  (c2_start_success (initState [4, 4] true) { id := 2, tracks := [8] }
    (by decide) rfl).1

/-- C3: a `toggle()` call in state `idle` whose microphone acquisition
fails (the synchronous part followed by the `mediaFail` continuation)
returns normally with the module state completely unchanged; the only
emitted events are the acquisition attempt and the user-visible alert —
in particular no `onStateChange` notification, no encoder start, and no
visualiser attach. -/
theorem c3_start_failure (s : St)
    (hidle : s.state = RecState.idle) :
    (mediaFail (toggleSync s).1).1 = s ∧
    (mediaFail (toggleSync s).1).1.state = RecState.idle ∧
    (toggleSync s).2 ++ (mediaFail (toggleSync s).1).2 =
      [Event.getUserMediaCall, Event.alertMicDenied] ∧
    (∀ x, Event.notify x ∉ (toggleSync s).2 ++ (mediaFail (toggleSync s).1).2) ∧
    (∀ i, Event.encoderStart i ∉ (toggleSync s).2 ++ (mediaFail (toggleSync s).1).2) ∧
    (∀ i, Event.attachVisualiser i ∉ (toggleSync s).2 ++ (mediaFail (toggleSync s).1).2) ∧
    Event.alertMicDenied ∈ (toggleSync s).2 ++ (mediaFail (toggleSync s).1).2 := by
  have ht : toggleSync s = (s, [Event.getUserMediaCall]) := by
    simp [toggleSync, hidle]
  rw [ht]
  refine ⟨rfl, hidle, rfl, ?_, ?_, ?_, ?_⟩ <;> simp [mediaFail]

/-- C3 witness: the freshly loaded state. -/
theorem c3_start_failure_witness :
    (mediaFail (toggleSync (initState [4] true)).1).1 = initState [4] true :=
  (c3_start_failure (initState [4] true) rfl).1

theorem play_blob (s : St) : (play s).1.blob = s.blob := by
  unfold play freshPlay
  repeat' split <;> try rfl

theorem applyOp_blob (s : St) (op : Op) :
    (applyOp s op).1.blob =
      (fun acc op =>
        match op with
        | Op.encoderDone b => some b
        | _ => acc) s.blob op := by
  cases op with
  | toggleSync => simp [applyOp, toggleSync]; split <;> rfl
  | mediaOk st => simp [applyOp, mediaOk, startVisualiser]
  | mediaFail => rfl
  | encoderDone b =>
    simp only [applyOp, stopCallback, closeStream, stopVisualiser]
    split <;> rfl
  | playToggle => simpa [applyOp] using play_blob s
  | playEnded => simp only [applyOp, onendedHandler]; split <;> rfl
  | advance t =>
    simp only [applyOp, advance]
    split
    · split <;> rfl
    · rfl
  | drawFrame data => simp only [applyOp, drawFrame]; split <;> rfl

theorem runTrace_blob (s : St) (ops : List Op) :
    (runTrace s ops).1.blob =
      ops.foldl (fun acc op =>
        match op with
        | Op.encoderDone b => some b
        | _ => acc) s.blob := by
  induction ops generalizing s with
  | nil => rfl
  | cons op ops ih =>
    simp only [runTrace, List.foldl_cons]
    rw [ih, applyOp_blob]

theorem lastArtifact_isSome_aux (ops : List Op) (acc : Option Blob) (h : acc.isSome) :
    (ops.foldl (fun acc op =>
      match op with
      | Op.encoderDone b => some b
      | _ => acc) acc).isSome := by
  induction ops generalizing acc with
  | nil => exact h
  | cons op ops ih =>
    cases op <;> simp only [List.foldl_cons] <;> exact ih _ (by simp_all)

/-- C6: over every execution trace from the freshly loaded state,
`getBlob()` returns `none` until the first encoder completion, and after
that always returns the blob delivered by the most recent encoder
completion (re-recording replaces it wholesale); in particular once a
recording has completed the returned artifact is never absent. -/
theorem c6_get_blob_last_artifact (bars0 : List ℚ) (hasCb : Bool) (ops : List Op) :
    getBlob (runTrace (initState bars0 hasCb) ops).1 = lastArtifact ops ∧
    (∀ b : Blob, Op.encoderDone b ∈ ops →
      (getBlob (runTrace (initState bars0 hasCb) ops).1).isSome) := by
  have heq : getBlob (runTrace (initState bars0 hasCb) ops).1 = lastArtifact ops := by
    unfold getBlob lastArtifact
    rw [runTrace_blob]
    rfl
  refine ⟨heq, fun b hb => ?_⟩
  rw [heq]
  unfold lastArtifact
  rcases List.append_of_mem hb with ⟨l1, l2, rfl⟩
  rw [List.foldl_append, List.foldl_cons]
  exact lastArtifact_isSome_aux l2 (some b) rfl

/-- C6 witness: a trace that starts a recording and completes it with a
9-byte blob; `getBlob` then returns exactly that blob and is not
absent. -/
theorem c6_get_blob_last_artifact_witness :
    getBlob (runTrace (initState [4] true)
        [Op.toggleSync, Op.mediaOk { id := 1, tracks := [5] },
         Op.toggleSync, Op.encoderDone { size := 9, tag := 3 }]).1 =
      lastArtifact
        [Op.toggleSync, Op.mediaOk { id := 1, tracks := [5] },
         Op.toggleSync, Op.encoderDone { size := 9, tag := 3 }] ∧
    (getBlob (runTrace (initState [4] true)
        [Op.toggleSync, Op.mediaOk { id := 1, tracks := [5] },
         Op.toggleSync, Op.encoderDone { size := 9, tag := 3 }]).1).isSome :=
  ⟨(c6_get_blob_last_artifact [4] true _).1,
   (c6_get_blob_last_artifact [4] true _).2 { size := 9, tag := 3 }
     (List.mem_cons_of_mem _ (List.mem_cons_of_mem _
       (List.mem_cons_of_mem _ (List.mem_cons_self _ _))))⟩

/-- C8: with a non-empty artifact and no current playback element
(stopped), the toggle-driven cycle visits exactly
stopped → playing → paused → playing → stopped: the first `play()` starts
a fresh element at position 0, the next `play()` after `t` time units
pauses in place preserving the position `t`, the next `play()` resumes
the same element from `t` (no new handle), and on natural end the
`onended` handler returns to stopped and revokes the transient object
URL. -/
theorem c8_playback_cycle (s : St) (b : Blob) (t : ℚ)
    (s1 s2 s3 s4 s5 : St)
    (hb : s.blob = some b) (hsz : b.size ≠ 0) (hstop : s.audioEl = none)
    (ht : 0 < t)
    (h1 : s1 = (play s).1) (h2 : s2 = advance s1 t) (h3 : s3 = (play s2).1)
    (h4 : s4 = (play s3).1) (h5 : s5 = (onendedHandler s4).1) :
    s1.audioEl = some { paused := false, currentTime := 0, url := s.nextUrl } ∧
    Event.playStarted s.nextUrl ∈ (play s).2 ∧
    s2.audioEl = some { paused := false, currentTime := t, url := s.nextUrl } ∧
    s3.audioEl = some { paused := true, currentTime := t, url := s.nextUrl } ∧
    (play s2).2 = [Event.pauseCalled, Event.setPlayBtnPlay] ∧
    s4.audioEl = some { paused := false, currentTime := t, url := s.nextUrl } ∧
    (play s3).2 = [Event.playCalled s.nextUrl, Event.setPlayBtnPause] ∧
    s5.audioEl = none ∧
    (onendedHandler s4).2 = [Event.setPlayBtnPlay, Event.revokeURL s.nextUrl] := by
  have hps : play s = freshPlay s := by
    simp [play, hb, hsz, hstop]
  have hs1el : s1.audioEl = some { paused := false, currentTime := 0, url := s.nextUrl } := by
    rw [h1, hps]; rfl
  have hs1blob : s1.blob = some b := by
    rw [h1, play_blob]; exact hb
  have hs2el : s2.audioEl = some { paused := false, currentTime := t, url := s.nextUrl } := by
    rw [h2, advance, hs1el]
    norm_num
  have hs2blob : s2.blob = some b := by
    rw [h2, advance, hs1el]
    simpa using hs1blob
  have hp2a : s3.audioEl = some { paused := true, currentTime := t, url := s.nextUrl } := by
    rw [h3]
    simp [play, hs2blob, hsz, hs2el]
  have hp2b : (play s2).2 = [Event.pauseCalled, Event.setPlayBtnPlay] := by
    simp [play, hs2blob, hsz, hs2el]
  have hs3blob : s3.blob = some b := by
    rw [h3, play_blob]; exact hs2blob
  have hp3a : s4.audioEl = some { paused := false, currentTime := t, url := s.nextUrl } := by
    rw [h4]
    simp [play, hs3blob, hsz, hp2a, ht]
  have hp3b : (play s3).2 = [Event.playCalled s.nextUrl, Event.setPlayBtnPause] := by
    simp [play, hs3blob, hsz, hp2a, ht]
  have henda : s5.audioEl = none := by
    rw [h5]
    simp [onendedHandler, hp3a]
  have hendb : (onendedHandler s4).2 = [Event.setPlayBtnPlay, Event.revokeURL s.nextUrl] := by
    simp [onendedHandler, hp3a]
  refine ⟨hs1el, ?_, hs2el, hp2a, hp2b, hp3a, hp3b, henda, hendb⟩
  rw [hps]
  simp [freshPlay]

/-- C8 witness: a concrete done-state with a 7-byte blob, pausing after
one time unit. -/
theorem c8_playback_cycle_witness :
    ((play { initState [4] true with blob := some { size := 7, tag := 2 } }).1).audioEl =
      some { paused := false, currentTime := 0,
             url := { initState [4] true with blob := some { size := 7, tag := 2 } }.nextUrl } :=
  (c8_playback_cycle { initState [4] true with blob := some { size := 7, tag := 2 } }
    { size := 7, tag := 2 } 1 _ _ _ _ _ rfl (by decide) rfl (by norm_num)
    rfl rfl rfl rfl rfl).1

/-- Concrete interleaving for the concurrency analysis: from the freshly
loaded state, two `toggle()` calls both run their synchronous part (both
observe `state = idle`, since the first is still suspended on
`getUserMedia`), and then both acquisition continuations run, with two
distinct streams granted. -/
def concurrentToggleRun : St × List Event :=
  runTrace (initState [4, 4, 4, 4] true)
    [Op.toggleSync, Op.toggleSync,
     Op.mediaOk { id := 1, tracks := [10, 11] },
     Op.mediaOk { id := 2, tracks := [20, 21] }]

/-- C5: the module has no guard against overlapping toggles.  When a
second `toggle()` call arrives while the first is still awaiting the
microphone, the second is not rejected: the microphone is requested
twice, encoders are started on two distinct streams, `onStateChange` is
fired twice with `recording`, only the second stream is retained, and no
track of the first stream is ever stopped — it leaks. -/
theorem c5_concurrent_toggle_not_rejected :
    concurrentToggleRun.2.count Event.getUserMediaCall = 2 ∧
    Event.encoderStart 1 ∈ concurrentToggleRun.2 ∧
    Event.encoderStart 2 ∈ concurrentToggleRun.2 ∧
    concurrentToggleRun.2.count (Event.notify RecState.recording) = 2 ∧
    concurrentToggleRun.1.stream = some { id := 2, tracks := [20, 21] } ∧
    Event.trackStop 10 ∉ concurrentToggleRun.2 ∧
    Event.trackStop 11 ∉ concurrentToggleRun.2 := by
  decide

end Recorder
